import Mathlib

/-!
# Verification of the AdSynth multi-agent ad-generation pipeline

A shallow embedding, in Lean 4, of the pure core of the pipeline found in
`src/multi_agent/orchestrator.py` and `src/utils/json_utils.py` of the
`adsynth_backedn` repository, together with theorems settling the frozen
claims about its natural-language specification.

Python strings are modelled as `List Char`.  Python's `json.loads` is an
external standard-library collaborator; it is modelled here by an executable
recursive-descent JSON parser (`jsonParse`) over a `Json` value type.  JSON
numbers are modelled as integers: fractional or exponent literals are
rejected by the model parser (no concrete input used in any theorem below
contains one).  Python exceptions are modelled with `Except String`;
a Python function that cannot raise is modelled as a total Lean function.

Regular-expression operations from the source (`re.sub`, `re.findall` on the
handful of fixed patterns the code uses) are modelled by explicit fuel-based
scanners whose behaviour matches Python's leftmost, non-overlapping,
lazy-quantifier semantics for those concrete patterns.
-/

set_option maxRecDepth 10000

/-- Python strings, modelled as lists of characters. -/
abbrev Str := List Char

namespace AdSynth

/-- The `{` character (written via its code point). -/
def lbrace : Char := '\x7b'

/-- The `}` character (written via its code point). -/
def rbrace : Char := '\x7d'

/-- The backtick character (written via its code point). -/
def btick : Char := '\x60'

/-- `startsWith pat l` : `pat` is a prefix of `l`. -/
def startsWith : Str → Str → Bool
  | [], _ => true
  | _ :: _, [] => false
  | p :: ps, c :: cs => p = c && startsWith ps cs

/-- Occurrence of `pat` as a contiguous substring of `l`
(Python's `pat in l` for strings). -/
def containsSub (pat : Str) : Str → Bool
  | [] => startsWith pat []
  | c :: cs => startsWith pat (c :: cs) || containsSub pat cs

/-- Drop through the first occurrence of the character `stop`:
returns the suffix strictly after it, or `none` if absent. -/
def dropThrough (stop : Char) : Str → Option Str
  | [] => none
  | c :: cs => if c = stop then some cs else dropThrough stop cs

/-- Split at the first occurrence of the substring `pat`: returns the part
before it and the suffix after it, or `none` if `pat` does not occur. -/
def splitAtSeq (pat : Str) : Str → Option (Str × Str)
  | [] => none
  | c :: cs =>
    if startsWith pat (c :: cs) then some ([], (c :: cs).drop pat.length)
    else match splitAtSeq pat cs with
         | some p => some (c :: p.1, p.2)
         | none => none

/-- ASCII whitespace as recognised by Python's `str.strip` / `\s`
(the inputs in this development are ASCII). -/
def pyIsSpace (c : Char) : Bool :=
  c = ' ' || c = '\t' || c = '\n' || c = '\r' || c = '\x0b' || c = '\x0c'

/-- Python's `str.strip()`: remove leading and trailing whitespace. -/
def pyStrip (l : Str) : Str :=
  ((l.dropWhile pyIsSpace).reverse.dropWhile pyIsSpace).reverse

/-- Python's `str.lower()` (ASCII). -/
def pyLower (l : Str) : Str := l.map Char.toLower

/-- Python's `str.split(sep)` for a one-character separator `sep`. -/
def splitOnChar (sep : Char) : Str → List Str
  | [] => [[]]
  | c :: cs =>
    let r := splitOnChar sep cs
    if c = sep then [] :: r
    else match r with
         | [] => [[c]]
         | h :: t => (c :: h) :: t

/-- Order-preserving de-duplication, keeping the first occurrence
(Python's `list(dict.fromkeys(xs))`). -/
def dedupFirst (seen : List Str) : List Str → List Str
  | [] => []
  | x :: xs =>
    if seen.contains x then dedupFirst seen xs
    else x :: dedupFirst (x :: seen) xs

/-! ## JSON values and a model of `json.loads`

`Json` models the values Python's `json` module produces, except that
numbers are restricted to integers (see the header comment). -/

/-- Parsed JSON values (Python `json.loads` results, numbers as integers). -/
inductive Json where
  | null : Json
  | bool (b : Bool) : Json
  | num (n : Int) : Json
  | str (s : Str) : Json
  | arr (xs : List Json) : Json
  | obj (kvs : List (Str × Json)) : Json

/-- Insert into an association list with Python `dict` semantics:
an existing key keeps its position and its value is overwritten,
a new key is appended at the end. -/
def objInsert (kvs : List (Str × Json)) (k : Str) (v : Json) : List (Str × Json) :=
  match kvs with
  | [] => [(k, v)]
  | (k', v') :: rest =>
    if k' = k then (k', v) :: rest else (k', v') :: objInsert rest k v

/-- Key lookup in an association list (`dict.__getitem__` domain). -/
def objLookup (kvs : List (Str × Json)) (k : Str) : Option Json :=
  match kvs with
  | [] => none
  | (k', v) :: rest => if k' = k then some v else objLookup rest k

/-- JSON structural whitespace (RFC 8259, as accepted by `json.loads`). -/
def jsonWs (c : Char) : Bool := c = ' ' || c = '\t' || c = '\n' || c = '\r'

/-- Skip JSON whitespace. -/
def skipWs (l : Str) : Str := l.dropWhile jsonWs

/-- Decimal digit test. -/
def isDigitCh (c : Char) : Bool := '0' ≤ c && c ≤ '9'

/-- Digit value of a decimal digit character. -/
def digitVal (c : Char) : Nat := c.toNat - '0'.toNat

/-- Parse the body of a JSON string literal (the opening quote already
consumed): returns the decoded characters and the suffix after the closing
quote.  Handles the escape sequences `json.loads` accepts. -/
def parseStrBody : Nat → Str → Option (Str × Str)
  | 0, _ => none
  | _ + 1, [] => none
  | fuel + 1, c :: cs =>
    if c = '"' then some ([], cs)
    else if c = '\\' then
      match cs with
      | [] => none
      | e :: rest =>
        if e = 'u' then
          match rest with
          | h1 :: h2 :: h3 :: h4 :: rest' =>
            match [h1, h2, h3, h4].mapM (fun h => hexVal h) with
            | some ds =>
              let n := ds.foldl (fun a d => 16 * a + d) 0
              match parseStrBody fuel rest' with
              | some (s, suf) => some (Char.ofNat n :: s, suf)
              | none => none
            | none => none
          | _ => none
        else
          match escChar e with
          | some ch =>
            match parseStrBody fuel rest with
            | some (s, suf) => some (ch :: s, suf)
            | none => none
          | none => none
    else
      match parseStrBody fuel cs with
      | some (s, suf) => some (c :: s, suf)
      | none => none
where
  /-- Hexadecimal digit value. -/
  hexVal (c : Char) : Option Nat :=
    if isDigitCh c then some (digitVal c)
    else if 'a' ≤ c && c ≤ 'f' then some (c.toNat - 'a'.toNat + 10)
    else if 'A' ≤ c && c ≤ 'F' then some (c.toNat - 'A'.toNat + 10)
    else none
  /-- Single-character escape (`\"`, `\\`, `\/`, `\b`, `\f`, `\n`, `\r`, `\t`). -/
  escChar (e : Char) : Option Char :=
    if e = '"' then some '"'
    else if e = '\\' then some '\\'
    else if e = '/' then some '/'
    else if e = 'b' then some '\x08'
    else if e = 'f' then some '\x0c'
    else if e = 'n' then some '\n'
    else if e = 'r' then some '\r'
    else if e = 't' then some '\t'
    else none

/-- Parse a JSON integer literal.  Fractional and exponent literals are not
modelled: a `.`, `e` or `E` immediately after the digits makes the model
parser fail (no input used below contains one). -/
def parseNum (l : Str) : Option (Json × Str) :=
  let (sign, l') := match l with
                    | '-' :: rest => (true, rest)
                    | _ => (false, l)
  let digits := l'.takeWhile isDigitCh
  let rest := l'.dropWhile isDigitCh
  if digits.isEmpty then none
  else if digits.length > 1 && digits.headI = '0' then none
  else
    match rest with
    | c :: _ => if c = '.' || c = 'e' || c = 'E' then none else
        some (numOf sign digits, rest)
    | [] => some (numOf sign digits, rest)
where
  /-- Build the integer value. -/
  numOf (sign : Bool) (digits : Str) : Json :=
    let n : Nat := digits.foldl (fun a c => 10 * a + digitVal c) 0
    Json.num (if sign then -(n : Int) else (n : Int))

/-- Parse a comma-separated list of array elements up to `]`, given a parser
`pv` for single values.  `l` starts right after `[`. -/
def parseArrItems (pv : Str → Option (Json × Str)) : Nat → Str → Option (List Json × Str)
  | 0, _ => none
  | fuel + 1, l =>
    let l := skipWs l
    match l with
    | ']' :: rest => some ([], rest)
    | _ =>
      match pv l with
      | none => none
      | some (v, rest) =>
        let rest := skipWs rest
        match rest with
        | ']' :: rest' => some ([v], rest')
        | ',' :: rest' =>
          match parseArrItems pv fuel rest' with
          | some (vs, suf) =>
            -- a `]` immediately after `,` is invalid JSON
            match vs, skipWs rest' with
            | [], ']' :: _ => none
            | _, _ => some (v :: vs, suf)
          | none => none
        | _ => none

/-- Parse a comma-separated list of `"key": value` members up to the closing
brace, given a parser `pv` for values.  `l` starts right after the opening
brace. -/
def parseObjItems (pv : Str → Option (Json × Str)) : Nat → Str → Option (List (Str × Json) × Str)
  | 0, _ => none
  | fuel + 1, l =>
    let l := skipWs l
    match l with
    | c :: rest =>
      if c = rbrace then some ([], rest)
      else if c = '"' then
        match parseStrBody rest.length rest with
        | none => none
        | some (k, afterKey) =>
          match skipWs afterKey with
          | ':' :: afterColon =>
            match pv afterColon with
            | none => none
            | some (v, rest') =>
              match skipWs rest' with
              | c' :: rest'' =>
                if c' = rbrace then some ([(k, v)], rest'')
                else if c' = ',' then
                  match parseObjItems pv fuel rest'' with
                  | some (kvs, suf) =>
                    match kvs with
                    | [] => none   -- trailing comma before closing brace
                    | _ => some ((k, v) :: kvs, suf)
                  | none => none
                else none
              | [] => none
          | _ => none
      else none
    | [] => none

/-- Parse one JSON value, returning it and the unconsumed suffix. -/
def parseVal : Nat → Str → Option (Json × Str)
  | 0, _ => none
  | fuel + 1, l =>
    let l := skipWs l
    match l with
    | [] => none
    | c :: rest =>
      if c = lbrace then
        match parseObjItems (parseVal fuel) rest.length rest with
        | some (kvs, suf) => some (Json.obj (kvs.foldl (fun m p => objInsert m p.1 p.2) []), suf)
        | none => none
      else if c = '[' then
        match parseArrItems (parseVal fuel) rest.length rest with
        | some (vs, suf) => some (Json.arr vs, suf)
        | none => none
      else if c = '"' then
        match parseStrBody rest.length rest with
        | some (s, suf) => some (Json.str s, suf)
        | none => none
      else if startsWith "null".data (c :: rest) then some (Json.null, (c :: rest).drop 4)
      else if startsWith "true".data (c :: rest) then some (Json.bool true, (c :: rest).drop 4)
      else if startsWith "false".data (c :: rest) then some (Json.bool false, (c :: rest).drop 5)
      else parseNum (c :: rest)

/-- Model of Python's `json.loads`: parse a full JSON document
(leading/trailing whitespace allowed, nothing else may remain). -/
def jsonParse (l : Str) : Option Json :=
  match parseVal (l.length + 1) l with
  | some (v, rest) => if skipWs rest = [] then some v else none
  | none => none

/-! ## `src/utils/json_utils.py` : `extract_json_from_llm_response`

The four extraction strategies.  The regex searches of the source are
modelled by explicit scanners with the same (leftmost, non-overlapping,
lazy-quantifier) semantics as Python's `re.findall` on those patterns. -/

/-- Matches of `re.findall(r'```(?:json)?\s*([\s\S]*?)\s*```', l)`:
each match runs from a `` ``` `` opener (an immediately following `json`
is consumed) to the next `` ``` ``, the captured group being the enclosed
text with surrounding whitespace stripped; scanning resumes after the
closing fence. -/
def codeBlocksAux : Nat → Str → List Str
  | 0, _ => []
  | _ + 1, [] => []
  | fuel + 1, c :: cs =>
    let fence := [btick, btick, btick]
    if startsWith fence (c :: cs) then
      let afterOpen := (c :: cs).drop 3
      let afterJson := if startsWith "json".data afterOpen then afterOpen.drop 4 else afterOpen
      match splitAtSeq fence afterJson with
      | some (seg, suf) => pyStrip seg :: codeBlocksAux fuel suf
      | none => codeBlocksAux fuel cs
    else codeBlocksAux fuel cs

/-- The code-block candidates of extraction method 2. -/
def codeBlocks (l : Str) : List Str := codeBlocksAux l.length l

/-- Matches of `re.findall(r'({[\s\S]*?})', l)`: the non-greedy quantifier
makes each match run from a `{` to the *first* `}` after it; scanning
resumes after that `}` (matches do not overlap). -/
def braceCandsAux : Nat → Str → List Str
  | 0, _ => []
  | _ + 1, [] => []
  | fuel + 1, c :: cs =>
    if c = lbrace then
      match splitAtSeq [rbrace] cs with
      | some (mid, suf) => (lbrace :: (mid ++ [rbrace])) :: braceCandsAux fuel suf
      | none => braceCandsAux fuel cs
    else braceCandsAux fuel cs

/-- The `{...}` candidates of extraction method 3. -/
def braceCands (l : Str) : List Str := braceCandsAux l.length l

/-- Matches of `re.findall(r'(\[[\s\S]*?\])', l)` (same shape as
`braceCands`, with square brackets). -/
def bracketCandsAux : Nat → Str → List Str
  | 0, _ => []
  | _ + 1, [] => []
  | fuel + 1, c :: cs =>
    if c = '[' then
      match splitAtSeq [']'] cs with
      | some (mid, suf) => ('[' :: (mid ++ [']'])) :: bracketCandsAux fuel suf
      | none => bracketCandsAux fuel cs
    else bracketCandsAux fuel cs

/-- The `[...]` candidates of extraction method 4. -/
def bracketCands (l : Str) : List Str := bracketCandsAux l.length l

/-- Stable insertion for a descending sort by length. -/
def insertLenDesc (x : Str) : List Str → List Str
  | [] => [x]
  | y :: ys => if y.length ≤ x.length then x :: y :: ys else y :: insertLenDesc x ys

/-- `sorted(candidates, key=len, reverse=True)`: stable descending sort by
length (Python's `sorted` is stable, also with `reverse=True`). -/
def sortLenDesc : List Str → List Str
  | [] => []
  | x :: xs => insertLenDesc x (sortLenDesc xs)

/-- `for s in candidates: try return json.loads(s) except: continue` —
the first candidate that parses. -/
def firstParse : List Str → Option Json
  | [] => none
  | s :: rest =>
    match jsonParse s with
    | some j => some j
    | none => firstParse rest

/-- The strategy chain of `extract_json_from_llm_response` (methods 1–4 of
`json_utils.py`, lines 27–64), mirroring the source's control flow. -/
def extract_core (response : Str) : Option Json :=
  -- Method 1: try to parse the entire response
  match jsonParse response with
  | some j => some j
  | none =>
    -- Method 2: look for JSON within code blocks
    let code_blocks := codeBlocks response
    match (if code_blocks.isEmpty then none else firstParse code_blocks) with
    | some j => some j
    | none =>
      -- Method 3: try to find a JSON object pattern, longest match first
      let object_matches := braceCands response
      match (if object_matches.isEmpty then none
             else firstParse (sortLenDesc object_matches)) with
      | some j => some j
      | none =>
        -- Method 4: try to find a JSON array pattern, longest match first
        let array_matches := bracketCands response
        if array_matches.isEmpty then none
        else firstParse (sortLenDesc array_matches)

/-- `extract_json_from_llm_response(response, default_value)`
(`json_utils.py`, lines 9–72).  The Python function returns either a parsed
JSON value or the caller-supplied default, and catches every exception; it
is modelled as a total function into a sum. -/
def extract_json_from_llm_response {α : Type} (response : Str) (default : α) : Json ⊕ α :=
  -- `if not response or not response.strip(): return default_value`
  if (pyStrip response).isEmpty then Sum.inr default
  else
    match extract_core response with
    | some j => Sum.inl j
    | none => Sum.inr default

/-- The extraction chain as the (amended) specification words it: apply, in
order, whole-text parse, each fenced block, the `{...}` candidates longest
first, the `[...]` candidates longest first; first success wins. -/
def extract_specChain (response : Str) : Option Json :=
  (jsonParse response).orElse fun _ =>
    (firstParse (codeBlocks response)).orElse fun _ =>
      (firstParse (sortLenDesc (braceCands response))).orElse fun _ =>
        firstParse (sortLenDesc (bracketCands response))

/-! ## `BaseAgent._clean_llm_response` (orchestrator.py, lines 50–85)

Each `re.sub(pattern, repl, s, flags=re.DOTALL)` of the source is modelled
by a fuel-based scanner with the leftmost, non-overlapping, lazy semantics
of the concrete pattern. -/

/-- `re.sub(r'<think>.*?</think>', '', s, flags=re.DOTALL)`. -/
def subThinkPair : Nat → Str → Str
  | 0, l => l
  | _ + 1, [] => []
  | fuel + 1, c :: cs =>
    if startsWith "<think>".data (c :: cs) then
      match splitAtSeq "</think>".data ((c :: cs).drop 7) with
      | some (_, suf) => subThinkPair fuel suf
      | none => c :: subThinkPair fuel cs
    else c :: subThinkPair fuel cs

/-- `re.sub(r'<think.*?>', '', s, flags=re.DOTALL)`. -/
def subThinkOpen : Nat → Str → Str
  | 0, l => l
  | _ + 1, [] => []
  | fuel + 1, c :: cs =>
    if startsWith "<think".data (c :: cs) then
      match dropThrough '>' ((c :: cs).drop 6) with
      | some suf => subThinkOpen fuel suf
      | none => c :: subThinkOpen fuel cs
    else c :: subThinkOpen fuel cs

/-- `re.sub(r'</think.*?>', '', s, flags=re.DOTALL)`. -/
def subThinkClose : Nat → Str → Str
  | 0, l => l
  | _ + 1, [] => []
  | fuel + 1, c :: cs =>
    if startsWith "</think".data (c :: cs) then
      match dropThrough '>' ((c :: cs).drop 7) with
      | some suf => subThinkClose fuel suf
      | none => c :: subThinkClose fuel cs
    else c :: subThinkClose fuel cs

/-- `re.sub(r'<.*?>', '', s, flags=re.DOTALL)`: remove every span from a
`<` to the first `>` after it. -/
def subTags : Nat → Str → Str
  | 0, l => l
  | _ + 1, [] => []
  | fuel + 1, c :: cs =>
    if c = '<' then
      match dropThrough '>' cs with
      | some suf => subTags fuel suf
      | none => c :: subTags fuel cs
    else c :: subTags fuel cs

/-- `re.sub(r'```json(.*?)```', r'\1', s, flags=re.DOTALL)`: keep the raw
text between a ```` ```json ```` opener and the next `` ``` ``. -/
def subFenceJson : Nat → Str → Str
  | 0, l => l
  | _ + 1, [] => []
  | fuel + 1, c :: cs =>
    let opener := [btick, btick, btick, 'j', 's', 'o', 'n']
    if startsWith opener (c :: cs) then
      match splitAtSeq [btick, btick, btick] ((c :: cs).drop 7) with
      | some (seg, suf) => seg ++ subFenceJson fuel suf
      | none => c :: subFenceJson fuel cs
    else c :: subFenceJson fuel cs

/-- `re.sub(r'```(.*?)```', r'\1', s, flags=re.DOTALL)`. -/
def subFence : Nat → Str → Str
  | 0, l => l
  | _ + 1, [] => []
  | fuel + 1, c :: cs =>
    let fence := [btick, btick, btick]
    if startsWith fence (c :: cs) then
      match splitAtSeq fence ((c :: cs).drop 3) with
      | some (seg, suf) => seg ++ subFence fuel suf
      | none => c :: subFence fuel cs
    else c :: subFence fuel cs

/-- `re.sub(pat, '', s)` for a literal pattern `pat`: remove the leftmost,
non-overlapping occurrences. -/
def removeLit (pat : Str) : Nat → Str → Str
  | 0, l => l
  | _ + 1, [] => []
  | fuel + 1, c :: cs =>
    if startsWith pat (c :: cs) then removeLit pat fuel ((c :: cs).drop pat.length)
    else c :: removeLit pat fuel cs

/-- `BaseAgent._clean_llm_response(response)` (orchestrator.py, lines
50–85): strip reasoning-trace tags, any remaining angle-bracket tags,
fenced code-block delimiters and `JSON` labels, then trim whitespace. -/
def clean_llm_response (response : Str) : Str :=
  -- `if not response: return ""`
  if response.isEmpty then []
  else
    let c1 := subThinkPair response.length response
    let c2 := subThinkOpen c1.length c1
    let c3 := subThinkClose c2.length c2
    let c4 := subTags c3.length c3
    let c5 := subFenceJson c4.length c4
    let c6 := subFence c5.length c5
    let c7 := removeLit "JSON response:".data c6.length c6
    let c8 := removeLit "JSON:".data c7.length c7
    pyStrip c8

/-- Text free of every artifact `clean_llm_response` removes: no angle
bracket opener, no backtick, and neither `JSON` label. -/
def artifactFree (l : Str) : Bool :=
  !(l.contains '<') && !(l.contains btick) &&
    !(containsSub "JSON response:".data l) && !(containsSub "JSON:".data l)

/-! ## Python value operations on decoded JSON

The agents manipulate the decoded value with Python `dict`/operator
semantics; operations that raise on some value shapes are modelled in
`Except Str`. -/

/-- Python truthiness of a decoded JSON value. -/
def pyTruthy : Json → Bool
  | .null => false
  | .bool b => b
  | .num n => n ≠ 0
  | .str s => !s.isEmpty
  | .arr xs => !xs.isEmpty
  | .obj kvs => !kvs.isEmpty

/-- Python `key in container` for a string `key`: key test on a dict,
substring test on a str, membership on a list; `TypeError` otherwise. -/
def pyContainsStr (container : Json) (key : Str) : Except String Bool :=
  match container with
  | .obj kvs => .ok (kvs.any fun p => p.1 == key)
  | .str s => .ok (containsSub key s)
  | .arr xs => .ok (xs.any fun x => match x with | .str s => s == key | _ => false)
  | _ => .error "TypeError: argument is not iterable"

/-- Python `container[key] = v` for a string `key`: only dicts support
string-keyed item assignment. -/
def pySetItemStr (container : Json) (key : Str) (v : Json) : Except String Json :=
  match container with
  | .obj kvs => .ok (.obj (objInsert kvs key v))
  | _ => .error "TypeError: object does not support item assignment"

/-- Python `container[key]` for a string `key`. -/
def pyGetItemStr (container : Json) (key : Str) : Except String Json :=
  match container with
  | .obj kvs =>
    match objLookup kvs key with
    | some v => .ok v
    | none => .error "KeyError"
  | _ => .error "TypeError: indices must be integers"

/-- Python `container.get(key, default)`: only dicts have `.get`. -/
def pyDictGet (container : Json) (key : Str) (dflt : Json) : Except String Json :=
  match container with
  | .obj kvs => .ok ((objLookup kvs key).getD dflt)
  | _ => .error "AttributeError: object has no attribute get"

/-- Python `v >= n` for an integer `n`: numbers compare, `bool` counts as
`0`/`1`, every other shape raises `TypeError`. -/
def pyGeInt (v : Json) (n : Int) : Except String Bool :=
  match v with
  | .num m => .ok (n ≤ m)
  | .bool b => .ok (n ≤ (if b then (1 : Int) else 0))
  | _ => .error "TypeError: comparison not supported"

/-- Python `v < n` for an integer `n` (same shape rules as `pyGeInt`). -/
def pyLtInt (v : Json) (n : Int) : Except String Bool :=
  match v with
  | .num m => .ok (m < n)
  | .bool b => .ok ((if b then (1 : Int) else 0) < n)
  | _ => .error "TypeError: comparison not supported"

/-- Python iteration over a decoded value: list elements, dict keys,
characters of a str; numbers/booleans/`None` are not iterable. -/
def pyIter : Json → Except String (List Json)
  | .arr xs => .ok xs
  | .obj kvs => .ok (kvs.map fun p => .str p.1)
  | .str s => .ok (s.map fun c => .str [c])
  | _ => .error "TypeError: object is not iterable"

/-- Decimal rendering of a natural number (auxiliary, most significant
digit first). -/
def natReprAux : Nat → Nat → Str
  | 0, _ => []
  | fuel + 1, n =>
    if n = 0 then [] else natReprAux fuel (n / 10) ++ [Nat.digitChar (n % 10)]

/-- Decimal rendering of a natural number. -/
def natRepr (n : Nat) : Str := if n = 0 then ['0'] else natReprAux n n

/-- Decimal rendering of an integer (Python's `str` on `int`). -/
def intRepr (n : Int) : Str :=
  if n < 0 then '-' :: natRepr (-n).toNat else natRepr n.toNat

/-- Python `str(v)` for a decoded value.  The renderings of nested
lists/dicts are abbreviated to their surrounding brackets; only their
non-emptiness is relevant below (Python's renderings are likewise
non-empty). -/
def pyStr : Json → Str
  | .null => "None".data
  | .bool true => "True".data
  | .bool false => "False".data
  | .num n => intRepr n
  | .str s => s
  | .arr _ => '[' :: [']']
  | .obj _ => lbrace :: [rbrace]

/-- `s.replace(old, new)` for a non-empty literal `old`: replace the
leftmost, non-overlapping occurrences. -/
def replaceLit (pat repl : Str) : Nat → Str → Str
  | 0, l => l
  | _ + 1, [] => []
  | fuel + 1, c :: cs =>
    if startsWith pat (c :: cs) then repl ++ replaceLit pat repl fuel ((c :: cs).drop pat.length)
    else c :: replaceLit pat repl fuel cs

/-- `s.split(sep)` for a non-empty literal separator. -/
def splitOnSeq (sep : Str) : Nat → Str → List Str
  | 0, l => [l]
  | _ + 1, [] => [[]]
  | fuel + 1, c :: cs =>
    if startsWith sep (c :: cs) then
      [] :: splitOnSeq sep fuel ((c :: cs).drop sep.length)
    else
      match splitOnSeq sep fuel cs with
      | [] => [[c]]
      | h :: t => (c :: h) :: t

/-! ## `AnalysisAgent` (orchestrator.py, lines 422–767) -/

/-- The product-information record handed to the pipeline.  The four
required keys are fields; the optional keys may be absent
(`product_info.get(key, default)` in the source). -/
structure ProductInfo where
  product_name : Str
  product_description : Str
  target_audience : Str
  campaign_goal : Str
  use_cases : Option Str
  niche : Option Str
  keywords : Option Str

/-- The `problem_indicators` list of `_generate_default_pain_points`. -/
def problemIndicators : List Str :=
  ["solve".data, "problem".data, "challenge".data, "improve".data,
   "enhance".data, "prevent".data, "reduce".data]

/-- The `generic_pain_points` list of `_generate_default_pain_points`. -/
def genericPainPoints (p : ProductInfo) : List Str :=
  ["Frustration with current ".data ++ p.product_name ++ " alternatives".data,
   "Dissatisfaction with the quality of existing solutions".data,
   "Feeling overwhelmed by too many complex options".data,
   "Wasting time and money on ineffective products".data,
   "Stress from dealing with persistent problems".data]

/-- `AnalysisAgent._generate_default_pain_points(product_info)`
(orchestrator.py, lines 646–694). -/
def generate_default_pain_points (p : ProductInfo) : List Str :=
  let use_cases := p.use_cases.getD []
  let description := p.product_description
  -- pain points derived from the use cases
  let pain_points :=
    if !use_cases.isEmpty then
      (splitOnChar ',' use_cases).map fun part =>
        let use_case := pyLower (pyStrip part)
        if containsSub "pain".data use_case then
          "Chronic or recurring ".data ++ use_case
        else if containsSub "quality".data use_case then
          "Poor or inconsistent ".data ++ use_case
        else if containsSub "improve".data use_case then
          let r1 := replaceLit "improving".data [] use_case.length use_case
          let aspect := pyStrip (replaceLit "improve".data [] r1.length r1)
          "Dissatisfaction with current ".data ++ aspect ++ " solutions".data
        else
          "Frustration with inadequate ".data ++ use_case ++ " options".data
    else []
  -- otherwise, pain points derived from the description
  let pain_points :=
    if pain_points.isEmpty && !description.isEmpty then
      let descLower := pyLower description
      (problemIndicators.filterMap fun indicator =>
        if containsSub indicator descLower then
          let parts := splitOnSeq indicator descLower.length descLower
          match parts with
          | _ :: second :: _ =>
            let context := (splitOnChar '.' (pyStrip second)).headI
            some ("Difficulty with ".data ++ context)
          | _ => none
        else none)
    else pain_points
  -- pad with generic pain points when fewer than 3 were produced
  let pain_points :=
    if pain_points.length < 3 then pain_points ++ genericPainPoints p
    else pain_points
  (dedupFirst [] pain_points).take 5

/-- `AnalysisAgent._generate_default_language(product_info)`
(orchestrator.py, lines 696–737). -/
def generate_default_language (p : ProductInfo) : List Str :=
  let keywords := splitOnChar ',' (p.keywords.getD [])
  let target_audience := p.target_audience
  let niche := p.niche.getD []
  let fromKeywords := (keywords.map pyStrip).filter (fun k => !k.isEmpty)
  let audLower := pyLower target_audience
  let fromAudience :=
    if !target_audience.isEmpty then
      (if containsSub "professional".data audLower then
        ["ROI".data, "efficiency".data, "performance".data, "productivity".data]
       else []) ++
      (if containsSub "parent".data audLower then
        ["family-friendly".data, "time-saving".data, "child-safe".data,
         "peace of mind".data]
       else []) ++
      (if containsSub "health".data audLower then
        ["wellness".data, "self-care".data, "healthy lifestyle".data,
         "well-being".data]
       else []) ++
      (if containsSub "tech".data audLower then
        ["innovative".data, "cutting-edge".data, "state-of-the-art".data,
         "seamless".data]
       else [])
    else []
  let fromNiche :=
    if !niche.isEmpty then (splitOnChar ',' niche).map pyStrip else []
  let generic_language :=
    ["game-changer".data, "life-changing".data, "revolutionary".data,
     "must-have".data, "essential".data, "breakthrough".data,
     "hassle-free".data]
  let all_language := fromKeywords ++ fromAudience ++ fromNiche ++ generic_language
  (dedupFirst [] (all_language.filter fun term => !term.isEmpty)).take 7

/-- `AnalysisAgent._generate_default_topics(product_info)`
(orchestrator.py, lines 739–767). -/
def generate_default_topics (p : ProductInfo) : List Str :=
  let niche := p.niche.getD []
  let keywords := p.keywords.getD []
  let fromNiche :=
    if !niche.isEmpty then
      ((splitOnChar ',' niche).map pyStrip).filterMap fun term =>
        if !term.isEmpty then some (term ++ " innovation".data) else none
    else []
  let fromKeywords :=
    if !keywords.isEmpty then
      ((splitOnChar ',' keywords).map pyStrip).filterMap fun term =>
        if !term.isEmpty then some ("Advancements in ".data ++ term) else none
    else []
  let generic_topics :=
    ["Sustainable and eco-friendly alternatives".data,
     "Digital transformation in daily life".data,
     "Health and wellness optimization".data,
     "Work-life balance improvements".data,
     "Smart technology integration".data]
  (dedupFirst [] (fromNiche ++ fromKeywords ++ generic_topics)).take 5

/-- The synthesized free-text insights default of
`synthesize_insights_without_data`. -/
def defaultInsightsText (p : ProductInfo) : Str :=
  "Without access to specific user data, we can infer that ".data ++
    p.target_audience ++
    " likely experience issues that ".data ++ p.product_name ++
    " can solve. The marketing campaign should focus on highlighting how the product addresses these pain points while using terminology familiar to the audience.".data

/-- The per-key default used both in the `default_value` passed to
extraction and in the required-keys repair loop of
`synthesize_insights_without_data`. -/
def synthDefaultFor (p : ProductInfo) (key : Str) : Json :=
  if key == "pain_points".data then .arr ((generate_default_pain_points p).map .str)
  else if key == "language".data then .arr ((generate_default_language p).map .str)
  else if key == "topics".data then .arr ((generate_default_topics p).map .str)
  else .str (defaultInsightsText p)

/-- Collapse `extract_json_from_llm_response` to the value the Python
caller sees (a parsed value or the supplied default). -/
def extractWithDefault (response : Str) (dflt : Json) : Json :=
  match extract_json_from_llm_response response dflt with
  | .inl j => j
  | .inr d => d

/-- One iteration of the required-keys repair loop:
`if key not in insights or not insights[key]: insights[key] = default`. -/
def synthFixKey (p : ProductInfo) (ins : Json) (key : Str) : Except String Json := do
  let present ← pyContainsStr ins key
  if !present then pySetItemStr ins key (synthDefaultFor p key)
  else
    let v ← pyGetItemStr ins key
    if !(pyTruthy v) then pySetItemStr ins key (synthDefaultFor p key)
    else pure ins

/-- One iteration of the list-coercion loop:
`if not isinstance(insights[key], list): insights[key] = [str(insights[key])]`. -/
def synthCoerceList (ins : Json) (key : Str) : Except String Json := do
  let v ← pyGetItemStr ins key
  match v with
  | .arr _ => pure ins
  | _ => pySetItemStr ins key (.arr [.str (pyStr v)])

/-- The final summary coercion:
`if not isinstance(insights["insights"], str): insights["insights"] = str(...)`. -/
def synthCoerceStr (ins : Json) : Except String Json := do
  let v ← pyGetItemStr ins "insights".data
  match v with
  | .str _ => pure ins
  | _ => pySetItemStr ins "insights".data (.str (pyStr v))

/-- The `default_value` dict passed to extraction by
`synthesize_insights_without_data`. -/
def synthDefaultObj (p : ProductInfo) : Json :=
  .obj
    [("pain_points".data, synthDefaultFor p "pain_points".data),
     ("language".data, synthDefaultFor p "language".data),
     ("topics".data, synthDefaultFor p "topics".data),
     ("insights".data, synthDefaultFor p "insights".data)]

/-- The post-extraction repair sequence of
`synthesize_insights_without_data` (orchestrator.py, lines 622–644). -/
def synthRepair (p : ProductInfo) (insights : Json) : Except String Json := do
  -- ensure all required keys are present and truthy
  let insights ← synthFixKey p insights "pain_points".data
  let insights ← synthFixKey p insights "language".data
  let insights ← synthFixKey p insights "topics".data
  let insights ← synthFixKey p insights "insights".data
  -- ensure the three list fields are lists
  let insights ← synthCoerceList insights "pain_points".data
  let insights ← synthCoerceList insights "language".data
  let insights ← synthCoerceList insights "topics".data
  -- ensure the summary field is a string
  synthCoerceStr insights

/-- `AnalysisAgent.synthesize_insights_without_data(product_info)`
(orchestrator.py, lines 573–644), as a function of the (already cleaned)
model response string.  A `TypeError` raised by the repair loop on a
non-dict decoded response surfaces as `.error`. -/
def synthesize_insights_without_data (p : ProductInfo) (response : Str) :
    Except String Json :=
  synthRepair p (extractWithDefault response (synthDefaultObj p))

/-- All four Insights fields populated: the three list fields are non-empty
lists and the summary is a non-empty string. -/
def insightsComplete (j : Json) : Bool :=
  match j with
  | .obj kvs =>
    (match objLookup kvs "pain_points".data with
     | some (.arr xs) => !xs.isEmpty | _ => false) &&
    (match objLookup kvs "language".data with
     | some (.arr xs) => !xs.isEmpty | _ => false) &&
    (match objLookup kvs "topics".data with
     | some (.arr xs) => !xs.isEmpty | _ => false) &&
    (match objLookup kvs "insights".data with
     | some (.str s) => !s.isEmpty | _ => false)
  | _ => false

/-- `AnalysisAgent.filter_posts_by_relevance` (orchestrator.py, lines
425–500), the evaluation loop: collect `batch[post_index]` for every
evaluation entry with `relevance_score >= 6` and a `post_index` in range.
Entries without a `.get` method, or with non-numeric scores or indices,
raise. -/
def relevanceLoop {α : Type} (batch : List α) : List Json → Except String (List α)
  | [] => .ok []
  | item :: rest => do
    let score ← pyDictGet item "relevance_score".data (.num 0)
    let qualifies ← pyGeInt score 6
    if qualifies then
      let idx ← pyDictGet item "post_index".data (.num (-1))
      let nonNeg ← pyGeInt idx 0
      if nonNeg then
        let inRange ← pyLtInt idx (batch.length : Int)
        if inRange then
          let i : Nat := (match idx with
                          | .num m => m.toNat
                          | .bool b => if b then 1 else 0
                          | _ => 0)
          match batch.get? i with
          | some post => do
            let tail ← relevanceLoop batch rest
            pure (post :: tail)
          | none => relevanceLoop batch rest   -- unreachable: `i < batch.length`
        else relevanceLoop batch rest
      else relevanceLoop batch rest
    else relevanceLoop batch rest

/-- `AnalysisAgent.filter_posts_by_relevance(posts_data, product_info)`
(orchestrator.py, lines 425–500) on the non-OpenAI provider path, as a
function of the (already cleaned) model response:
`evaluations = extract_json_from_llm_response(response, default_value=[])`,
then threshold filtering with the fail-open `return batch` branches. -/
def filter_posts_by_relevance {α : Type} (posts_data : List α) (response : Str) :
    Except String (List α) :=
  if posts_data.isEmpty then .ok []
  else
    let batch := posts_data.take 10
    let evaluations := extractWithDefault response (.arr [])
    if !(pyTruthy evaluations) then .ok batch
    else do
      let items ← pyIter evaluations
      let relevant_posts ← relevanceLoop batch items
      if !relevant_posts.isEmpty then pure relevant_posts
      else pure batch

/-- A well-formed evaluation entry whose relevance score (defaulting to 0
when absent) stays below the threshold 6. -/
def evalBelowThreshold (item : Json) : Bool :=
  match item with
  | .obj kvs =>
    match (objLookup kvs "relevance_score".data).getD (.num 0) with
    | .num m => decide (m < 6)
    | .bool _ => true
    | _ => false
  | _ => false

/-! ## `ReviewAgent.review_ad_script` (orchestrator.py, lines 923–1060) -/

/-- The six platform tags with dedicated criteria blocks. -/
def knownPlatforms : List Str :=
  ["general".data, "instagram".data, "youtube".data, "video".data,
   "tiktok".data, "facebook".data]

/-- The safe-default review payload (`default_value` at lines 1044–1051). -/
def reviewDefault (ad_script : Str) (platform : Str) : Json :=
  .obj
    [("score".data, .num 7),
     ("strengths".data, .arr [.str "Generally on target".data]),
     ("weaknesses".data, .arr [.str "Could be more specific".data]),
     ("suggestions".data, .arr [.str "Review original script".data]),
     ("platform_specific_feedback".data,
       .str ("Consider optimizing further for ".data ++ platform ++ " format".data)),
     ("improved_script".data, .str ad_script)]

/-- `if platform not in platform_criteria: platform = "general"`. -/
def normPlatform (platform : Str) : Str :=
  if knownPlatforms.contains platform then platform else "general".data

/-- `if "improved_script" not in review or not review["improved_script"]:
review["improved_script"] = ad_script` (orchestrator.py, lines 1054–1055),
with the short-circuit evaluation of the Python condition. -/
def reviewFixImproved (ad_script : Str) (review : Json) : Except String Json := do
  let present ← pyContainsStr review "improved_script".data
  if !present then pySetItemStr review "improved_script".data (.str ad_script)
  else do
    let v ← pyGetItemStr review "improved_script".data
    if !(pyTruthy v) then pySetItemStr review "improved_script".data (.str ad_script)
    else pure review

/-- `ReviewAgent.review_ad_script(ad_script, ..., platform)` as a function
of the (already cleaned) model response: extract the review payload, fall
back to the original script when `improved_script` is absent or falsy, then
record the platform. -/
def review_ad_script (ad_script : Str) (platform : Str) (response : Str) :
    Except String Json := do
  let platform := normPlatform platform
  let review := extractWithDefault response (reviewDefault ad_script platform)
  let review ← reviewFixImproved ad_script review
  -- `review["platform"] = platform`
  pySetItemStr review "platform".data (.str platform)

/-- The review payload's `improved_script` field is absent or falsy
(the condition of the fallback at lines 1054–1055). -/
def improvedFalsy (r : Json) : Bool :=
  match r with
  | .obj kvs =>
    match objLookup kvs "improved_script".data with
    | some v => !pyTruthy v
    | none => true
  | _ => true

/-! ## `BaseAgent.generate_llm_response` (orchestrator.py, lines 87–124) -/

/-- The three text-generation backends, each a function of model name and
prompt that either returns text or raises. -/
structure Backends where
  openai : Str → Str → Except String Str
  claude : Str → Str → Except String Str
  groq : Str → Str → Except String Str

/-- The provider dispatch of the `try` block (an unrecognised provider tag
defaults to OpenAI with `gpt-4o`). -/
def primaryCall (b : Backends) (llm_provider model_name prompt : Str) :
    Except String Str :=
  if llm_provider == "openai".data then b.openai model_name prompt
  else if llm_provider == "claude".data then b.claude model_name prompt
  else if llm_provider == "groq".data then b.groq model_name prompt
  else b.openai "gpt-4o".data prompt

/-- `BaseAgent.generate_llm_response(prompt)`: call the configured backend,
clean the response; on any exception fall back once to OpenAI `gpt-4o`; if
that also raises, return an inline error string embedding the first
error's message. -/
def generate_llm_response (b : Backends) (llm_provider model_name prompt : Str) : Str :=
  match primaryCall b llm_provider model_name prompt with
  | .ok response => clean_llm_response response
  | .error e =>
    match b.openai "gpt-4o".data prompt with
    | .ok response => clean_llm_response response
    | .error _ => "Error generating response: ".data ++ e.data

/-! ## `DataCollectionAgent.collect_data` (orchestrator.py, lines 361–419)

The external Reddit search (`self.search_subreddit`) is a collaborator; it
is passed in as a function of subreddit, query and limit that either
returns posts or raises.  The model additionally records the sequence of
search calls issued and whether the generic-query retry branch ran, so that
those behaviours can be stated. -/

/-- The validity filter applied to incoming subreddit names:
`subreddit and len(subreddit) > 2 and ' ' not in subreddit and
not subreddit.startswith('<')`. -/
def validSubName (s : Str) : Bool :=
  !s.isEmpty && s.length > 2 && !(s.contains ' ') && !(startsWith "<".data s)

/-- The fixed default subreddits used when every incoming name is invalid. -/
def defaultSubreddits : List Str :=
  ["askreddit".data, "advice".data, "tipofmytongue".data, "buyitforlife".data]

/-- The fixed generic queries used when every incoming query is invalid. -/
def genericQueries : List Str :=
  ["review".data, "recommendation".data, "problem".data, "alternative".data]

/-- The generic fallback queries of the retry branch. -/
def fallbackQueries : List Str :=
  ["recommendation".data, "review".data, "advice".data]

/-- Query cleaning: keep queries longer than 3 characters, strip quote
characters and whitespace, drop those that end up empty. -/
def cleanQueries (queries : List Str) : List Str :=
  queries.filterMap fun query =>
    if !query.isEmpty && query.length > 3 then
      -- `query.replace('"', '').replace("'", "").strip()`
      let cq := pyStrip ((query.filter fun c => c ≠ '"').filter fun c => c ≠ '\'')
      if !cq.isEmpty then some cq else none
    else none

/-- The outcome of `collect_data`, instrumented with the issued search
calls and whether the retry branch executed. -/
structure CollectResult (α : Type) where
  posts : List α
  successful_subreddits : Nat
  calls : List (Str × Str)
  retried : Bool

/-- The inner query loop for one subreddit: issue one search per query,
a raising search is caught and contributes nothing. -/
def collectForSubreddit {α : Type} (search : Str → Str → Nat → Except String (List α))
    (ppq : Nat) (sub : Str) (queries : List Str) : List α × List (Str × Str) :=
  queries.foldl
    (fun acc q =>
      let found := match search sub q ppq with
                   | .ok ps => ps
                   | .error _ => []
      (acc.1 ++ found, acc.2 ++ [(sub, q)]))
    ([], [])

/-- The outer subreddit loop: posts in order, the count of subreddits that
yielded at least one post, and the calls issued. -/
def collectMainLoop {α : Type} (search : Str → Str → Nat → Except String (List α))
    (ppq : Nat) (queries : List Str) : List Str → List α × Nat × List (Str × Str)
  | [] => ([], 0, [])
  | sub :: rest =>
    let r := collectForSubreddit search ppq sub queries
    let r' := collectMainLoop search ppq queries rest
    (r.1 ++ r'.1, (if r.1.isEmpty then 0 else 1) + r'.2.1, r.2 ++ r'.2.2)

/-- The retry branch: the first three subreddits with the three generic
fallback queries, limit 2, exceptions swallowed. -/
def collectRetry {α : Type} (search : Str → Str → Nat → Except String (List α))
    (subs : List Str) : List α × List (Str × Str) :=
  (subs.take 3).foldl
    (fun acc sub =>
      fallbackQueries.foldl
        (fun acc q =>
          let found := match search sub q 2 with
                       | .ok ps => ps
                       | .error _ => []
          (acc.1 ++ found, acc.2 ++ [(sub, q)]))
        acc)
    ([], [])

/-- The subreddit list actually searched: the cleaned valid names, or the
fixed defaults when none survive. -/
def effectiveSubreddits (subreddits : List Str) : List Str :=
  let clean_subreddits := (subreddits.filter validSubName).map fun s => pyLower (pyStrip s)
  if clean_subreddits.isEmpty then defaultSubreddits else clean_subreddits

/-- The query list actually used: the cleaned queries, or the fixed generic
queries when none survive. -/
def effectiveQueries (queries : List Str) : List Str :=
  let clean_queries := cleanQueries queries
  if clean_queries.isEmpty then genericQueries else clean_queries

/-- `DataCollectionAgent.collect_data(subreddits, queries, posts_per_query)`
(orchestrator.py, lines 361–419). -/
def collect_data {α : Type} (search : Str → Str → Nat → Except String (List α))
    (subreddits queries : List Str) (posts_per_query : Nat) : CollectResult α :=
  let clean_subreddits := effectiveSubreddits subreddits
  let clean_queries := effectiveQueries queries
  let r := collectMainLoop search posts_per_query clean_queries clean_subreddits
  if r.1.isEmpty && r.2.1 > 0 then
    let retry := collectRetry search clean_subreddits
    { posts := r.1 ++ retry.1
      successful_subreddits := r.2.1
      calls := r.2.2 ++ retry.2
      retried := true }
  else
    { posts := r.1
      successful_subreddits := r.2.1
      calls := r.2.2
      retried := false }

/-! ## `AdGeneratorOrchestrator.generate_ad` (orchestrator.py, lines 1090–1219)

The five agents and the runbook collaborator are abstracted as provided
functions; the artifact store (`open`/`json.dump`/`f.write`) is abstracted
as a write function of the file name (the written content plays no role in
the claims about this operation). -/

/-- The stage collaborators of one pipeline run. -/
structure Agents (α : Type) where
  find_subreddits : List Str
  search_queries : List Str
  collect : List Str → List Str → List α
  filterPosts : List α → List α
  extractInsights : List α → Json
  synthesizeInsights : Json
  copywrite : Json → Str
  review : Str → Json
  runbook : Except String Str

/-- The returned pipeline aggregate (the parts the claims mention). -/
structure PipelineOutcome where
  final_ad_script : Json
  runbook_generated : Bool

/-- `AdGeneratorOrchestrator.generate_ad(...)`: the six-stage sequence with
optional intermediate persistence, the unconditional final-script write,
and the try/except only around runbook generation.  Every other `write`
failure propagates. -/
def generate_ad {α : Type} (ag : Agents α) (write : Str → Except String Unit)
    (save_intermediates skip_reddit generate_runbook : Bool) (platform : Str) :
    Except String PipelineOutcome := do
  -- `platform = platform or "general"`
  let platform := if platform.isEmpty then "general".data else platform
  -- Stage 1: Research
  let subreddits := ag.find_subreddits
  let queries := ag.search_queries
  if save_intermediates then
    write ("stage1_research_".data ++ platform ++ ".json".data)
  else pure ()
  -- Stage 2: Data Collection
  let posts_data ←
    if !skip_reddit then do
      let posts_data := ag.collect subreddits queries
      if save_intermediates && !posts_data.isEmpty then
        write ("stage2_raw_data_".data ++ platform ++ ".json".data)
      else pure ()
      pure posts_data
    else pure []
  -- Stage 3: Analysis
  let insights :=
    if !posts_data.isEmpty then ag.extractInsights (ag.filterPosts posts_data)
    else ag.synthesizeInsights
  if save_intermediates then
    write ("stage3_analysis_".data ++ platform ++ ".json".data)
  else pure ()
  -- Stage 4: Copywriting
  let ad_script := ag.copywrite insights
  if save_intermediates then
    write ("stage4_original_script_".data ++ platform ++ ".txt".data)
  else pure ()
  -- Stage 5: Review
  let review := ag.review ad_script
  if save_intermediates then
    write ("stage5_review_".data ++ platform ++ ".json".data)
  else pure ()
  -- `results["final_ad_script"] = review.get("improved_script", ad_script)`
  let final ← pyDictGet review "improved_script".data (.str ad_script)
  -- the final-script write is unconditional
  write ("final_ad_script_".data ++ platform ++ ".txt".data)
  -- Stage 6: Runbook generation, wrapped in try/except
  let runbook_generated :=
    if generate_runbook then
      match ag.runbook with
      | .ok _ => true
      | .error _ => false
    else false
  pure { final_ad_script := final, runbook_generated := runbook_generated }

/-! ## Helper lemmas -/

theorem objLookup_objInsert_self (kvs : List (Str × Json)) (k : Str) (v : Json) :
    objLookup (objInsert kvs k v) k = some v := by
  induction kvs with
  | nil => simp [objInsert, objLookup]
  | cons p rest ih =>
    obtain ⟨k', v'⟩ := p
    by_cases h : k' = k
    · simp [objInsert, objLookup, h]
    · simp [objInsert, objLookup, h, ih]

theorem objLookup_objInsert_ne (kvs : List (Str × Json)) (k k' : Str) (v : Json)
    (hk : k' ≠ k) : objLookup (objInsert kvs k v) k' = objLookup kvs k' := by
  induction kvs with
  | nil => simp [objInsert, objLookup, Ne.symm hk]
  | cons p rest ih =>
    obtain ⟨k₀, v₀⟩ := p
    by_cases h : k₀ = k
    · subst h
      simp [objInsert, objLookup, Ne.symm hk]
    · simp [objInsert, objLookup, h, ih]

theorem objAny_eq_isSome (kvs : List (Str × Json)) (k : Str) :
    (kvs.any fun p => p.1 == k) = (objLookup kvs k).isSome := by
  induction kvs with
  | nil => simp [objLookup]
  | cons p rest ih =>
    obtain ⟨k₀, v₀⟩ := p
    by_cases h : k₀ = k
    · simp [objLookup, h]
    · simp [objLookup, h, ih]

theorem natReprAux_ne (fuel n : Nat) (hn : n ≠ 0) (hf : fuel ≠ 0) :
    natReprAux fuel n ≠ [] := by
  cases fuel with
  | zero => exact absurd rfl hf
  | succ f => simp [natReprAux, hn]

theorem natRepr_ne (n : Nat) : natRepr n ≠ [] := by
  unfold natRepr
  by_cases h : n = 0
  · simp [h]
  · simpa [h] using natReprAux_ne n n h h

theorem intRepr_ne (n : Int) : intRepr n ≠ [] := by
  unfold intRepr
  by_cases h : n < 0
  · simp [h]
  · simpa [h] using natRepr_ne n.toNat

theorem pyStr_ne_of_truthy (v : Json) (h : pyTruthy v = true) : pyStr v ≠ [] := by
  cases v with
  | null => simp [pyTruthy] at h
  | bool b => cases b with
    | true => simp [pyStr]
    | false => simp [pyTruthy] at h
  | num n => exact intRepr_ne n
  | str s => simpa [pyTruthy, List.isEmpty_iff] using h
  | arr xs => simp [pyStr]
  | obj kvs => simp [pyStr]

theorem dropWhile_idem {α : Type} (p : α → Bool) (l : List α) :
    (l.dropWhile p).dropWhile p = l.dropWhile p := by
  induction l with
  | nil => rfl
  | cons c cs ih =>
    by_cases h : p c
    · simp [List.dropWhile_cons, h, ih]
    · simp [List.dropWhile_cons, h]

theorem dropWhile_length_le {α : Type} (p : α → Bool) (l : List α) :
    (l.dropWhile p).length ≤ l.length := by
  induction l with
  | nil => simp
  | cons c cs ih =>
    by_cases h : p c
    · rw [List.dropWhile_cons, if_pos h]
      exact le_trans ih (Nat.le_succ _)
    · rw [List.dropWhile_cons, if_neg h]

theorem head_not_p_of_dropWhile_eq {α : Type} (p : α → Bool) (c : α) (cs : List α)
    (h : (c :: cs).dropWhile p = c :: cs) : p c = false := by
  cases hpc : p c with
  | false => rfl
  | true =>
    rw [List.dropWhile_cons, if_pos hpc] at h
    have hlen := dropWhile_length_le p cs
    rw [h] at hlen
    simp at hlen

theorem pyStrip_idem (l : Str) : pyStrip (pyStrip l) = pyStrip l := by
  unfold pyStrip
  have hA : (l.dropWhile pyIsSpace).dropWhile pyIsSpace = l.dropWhile pyIsSpace :=
    dropWhile_idem _ _
  set a := l.dropWhile pyIsSpace with ha
  set br := a.reverse.dropWhile pyIsSpace with hbr
  obtain ⟨t, ht⟩ : ∃ t, a = br.reverse ++ t := by
    refine ⟨(a.reverse.takeWhile pyIsSpace).reverse, ?_⟩
    conv_lhs => rw [← List.reverse_reverse a,
      ← List.takeWhile_append_dropWhile (p := pyIsSpace) (l := a.reverse)]
    rw [List.reverse_append, hbr]
  have hfront : br.reverse.dropWhile pyIsSpace = br.reverse := by
    cases hc : br.reverse with
    | nil => rfl
    | cons c cs =>
      rw [hc] at ht
      have ht' : a = c :: (cs ++ t) := by simpa using ht
      have hfalse : pyIsSpace c = false := by
        apply head_not_p_of_dropWhile_eq pyIsSpace c (cs ++ t)
        rw [← ht']
        exact hA
      simp [List.dropWhile_cons, hfalse]
  rw [hfront, List.reverse_reverse]
  have hidem : br.dropWhile pyIsSpace = br := by
    rw [hbr]
    exact dropWhile_idem _ _
  rw [hidem]

theorem contains_cons_false {c : Char} {cs : Str} {x : Char}
    (h : ((c :: cs).contains x) = false) : c ≠ x ∧ cs.contains x = false := by
  simp [List.contains_cons] at h
  exact ⟨fun e => h.1 e.symm, by simp [h.2]⟩

theorem subThinkPair_id (fuel : Nat) (t : Str) (h : t.contains '<' = false) :
    subThinkPair fuel t = t := by
  induction fuel generalizing t with
  | zero => rfl
  | succ f ih =>
    cases t with
    | nil => rfl
    | cons c cs =>
      obtain ⟨hc, hcs⟩ := contains_cons_false h
      have hs : startsWith "<think>".data (c :: cs) = false := by
        simp [show "<think>".data = ['<', 't', 'h', 'i', 'n', 'k', '>'] from rfl,
          startsWith, Ne.symm hc]
      simp [subThinkPair, hs, ih cs hcs]

theorem subThinkOpen_id (fuel : Nat) (t : Str) (h : t.contains '<' = false) :
    subThinkOpen fuel t = t := by
  induction fuel generalizing t with
  | zero => rfl
  | succ f ih =>
    cases t with
    | nil => rfl
    | cons c cs =>
      obtain ⟨hc, hcs⟩ := contains_cons_false h
      have hs : startsWith "<think".data (c :: cs) = false := by
        simp [show "<think".data = ['<', 't', 'h', 'i', 'n', 'k'] from rfl,
          startsWith, Ne.symm hc]
      simp [subThinkOpen, hs, ih cs hcs]

theorem subThinkClose_id (fuel : Nat) (t : Str) (h : t.contains '<' = false) :
    subThinkClose fuel t = t := by
  induction fuel generalizing t with
  | zero => rfl
  | succ f ih =>
    cases t with
    | nil => rfl
    | cons c cs =>
      obtain ⟨hc, hcs⟩ := contains_cons_false h
      have hs : startsWith "</think".data (c :: cs) = false := by
        simp [show "</think".data = ['<', '/', 't', 'h', 'i', 'n', 'k'] from rfl,
          startsWith, Ne.symm hc]
      simp [subThinkClose, hs, ih cs hcs]

theorem subTags_id (fuel : Nat) (t : Str) (h : t.contains '<' = false) :
    subTags fuel t = t := by
  induction fuel generalizing t with
  | zero => rfl
  | succ f ih =>
    cases t with
    | nil => rfl
    | cons c cs =>
      obtain ⟨hc, hcs⟩ := contains_cons_false h
      simp [subTags, hc, ih cs hcs]

theorem subFenceJson_id (fuel : Nat) (t : Str) (h : t.contains btick = false) :
    subFenceJson fuel t = t := by
  induction fuel generalizing t with
  | zero => rfl
  | succ f ih =>
    cases t with
    | nil => rfl
    | cons c cs =>
      obtain ⟨hc, hcs⟩ := contains_cons_false h
      have hs : startsWith [btick, btick, btick, 'j', 's', 'o', 'n'] (c :: cs) = false := by
        simp [startsWith, Ne.symm hc]
      simp [subFenceJson, hs, ih cs hcs]

theorem subFence_id (fuel : Nat) (t : Str) (h : t.contains btick = false) :
    subFence fuel t = t := by
  induction fuel generalizing t with
  | zero => rfl
  | succ f ih =>
    cases t with
    | nil => rfl
    | cons c cs =>
      obtain ⟨hc, hcs⟩ := contains_cons_false h
      have hs : startsWith [btick, btick, btick] (c :: cs) = false := by
        simp [startsWith, Ne.symm hc]
      simp [subFence, hs, ih cs hcs]

theorem removeLit_id (pat : Str) (fuel : Nat) (t : Str)
    (h : containsSub pat t = false) : removeLit pat fuel t = t := by
  induction fuel generalizing t with
  | zero => rfl
  | succ f ih =>
    cases t with
    | nil => rfl
    | cons c cs =>
      have h' : startsWith pat (c :: cs) = false ∧ containsSub pat cs = false := by
        simpa [containsSub] using h
      simp [removeLit, h'.1, ih cs h'.2]

theorem pyStrip_clean (s : Str) :
    pyStrip (clean_llm_response s) = clean_llm_response s := by
  unfold clean_llm_response
  by_cases h : s.isEmpty
  · simp [h, pyStrip]
  · simp only [h, if_false, Bool.false_eq_true]
    exact pyStrip_idem _

theorem collectForSubreddit_calls {α : Type}
    (search : Str → Str → Nat → Except String (List α)) (ppq : Nat)
    (sub : Str) (queries : List Str) :
    (collectForSubreddit search ppq sub queries).2 = queries.map fun q => (sub, q) := by
  suffices h : ∀ acc : List α × List (Str × Str),
      (queries.foldl (fun acc q =>
        (acc.1 ++ (match search sub q ppq with | .ok ps => ps | .error _ => []),
         acc.2 ++ [(sub, q)])) acc).2
        = acc.2 ++ queries.map (fun q => (sub, q)) by
    simpa [collectForSubreddit] using h ([], [])
  intro acc
  induction queries generalizing acc with
  | nil => simp
  | cons q qs ih => simp [List.foldl_cons, ih]

theorem collectMainLoop_zero_success {α : Type}
    (search : Str → Str → Nat → Except String (List α)) (ppq : Nat)
    (queries : List Str) (subs : List Str)
    (h : (collectMainLoop search ppq queries subs).1 = []) :
    (collectMainLoop search ppq queries subs).2.1 = 0 := by
  induction subs with
  | nil => rfl
  | cons sub rest ih =>
    simp only [collectMainLoop] at h ⊢
    obtain ⟨h1, h2⟩ := List.append_eq_nil.mp h
    simp [h1, ih h2]

theorem collectMainLoop_calls {α : Type}
    (search : Str → Str → Nat → Except String (List α)) (ppq : Nat)
    (queries : List Str) (subs : List Str) :
    (collectMainLoop search ppq queries subs).2.2
      = subs.flatMap fun sub => queries.map fun q => (sub, q) := by
  induction subs with
  | nil => rfl
  | cons sub rest ih =>
    simp only [collectMainLoop, List.flatMap_cons]
    rw [collectForSubreddit_calls, ih]

theorem collect_data_calls {α : Type}
    (search : Str → Str → Nat → Except String (List α))
    (subreddits queries : List Str) (ppq : Nat) :
    (collect_data search subreddits queries ppq).calls =
      (effectiveSubreddits subreddits).flatMap fun sub =>
        (effectiveQueries queries).map fun q => (sub, q) := by
  unfold collect_data
  dsimp only
  generalize hM : collectMainLoop search ppq (effectiveQueries queries)
    (effectiveSubreddits subreddits) = M
  by_cases h : (M.1.isEmpty && decide (M.2.1 > 0)) = true
  · simp only [Bool.and_eq_true, decide_eq_true_eq, List.isEmpty_iff] at h
    have h0 := collectMainLoop_zero_success search ppq _ _ (by rw [hM]; exact h.1)
    rw [hM] at h0
    omega
  · rw [if_neg h]
    dsimp only
    rw [← hM, collectMainLoop_calls]

theorem effectiveSubreddits_all_invalid (subreddits : List Str)
    (h : ∀ s ∈ subreddits, validSubName s = false) :
    effectiveSubreddits subreddits = defaultSubreddits := by
  unfold effectiveSubreddits
  have hnil : subreddits.filter validSubName = [] := by
    rw [List.filter_eq_nil_iff]
    intro a ha
    simp [h a ha]
  simp [hnil]

theorem dedupFirst_take_ne (l : List Str) (n : Nat) (hl : l ≠ []) (hn : n ≠ 0) :
    (dedupFirst [] l).take n ≠ [] := by
  cases l with
  | nil => exact absurd rfl hl
  | cons x xs =>
    cases n with
    | zero => exact absurd rfl hn
    | succ m => simp [dedupFirst]

theorem pad_if_short_ne (l g : List Str) (k : Nat) (hg : g ≠ []) (hk : k ≠ 0) :
    (if l.length < k then l ++ g else l) ≠ [] := by
  split
  · next h => exact fun hc => hg (List.append_eq_nil.mp hc).2
  · next h =>
    intro hc
    rw [hc] at h
    simp at h
    omega

theorem generate_default_pain_points_ne (p : ProductInfo) :
    generate_default_pain_points p ≠ [] := by
  unfold generate_default_pain_points
  dsimp only
  apply dedupFirst_take_ne _ _ _ (by omega)
  apply pad_if_short_ne _ _ _ (by simp [genericPainPoints]) (by omega)

theorem generate_default_language_ne (p : ProductInfo) :
    generate_default_language p ≠ [] := by
  unfold generate_default_language
  dsimp only
  apply dedupFirst_take_ne _ _ _ (by omega)
  rw [List.filter_append]
  intro hc
  have := (List.append_eq_nil.mp hc).2
  simp at this

theorem generate_default_topics_ne (p : ProductInfo) :
    generate_default_topics p ≠ [] := by
  unfold generate_default_topics
  dsimp only
  apply dedupFirst_take_ne _ _ _ (by omega)
  intro hc
  have := (List.append_eq_nil.mp hc).2
  simp at this

theorem defaultInsightsText_ne (p : ProductInfo) : defaultInsightsText p ≠ [] := by
  unfold defaultInsightsText
  intro hc
  have h1 := (List.append_eq_nil.mp hc).1
  have h2 := (List.append_eq_nil.mp h1).1
  have h3 := (List.append_eq_nil.mp h2).1
  simp at h3

theorem synthDefaultFor_truthy (p : ProductInfo) (key : Str) :
    pyTruthy (synthDefaultFor p key) = true := by
  unfold synthDefaultFor
  by_cases h1 : key == "pain_points".data
  · simp [h1, pyTruthy, List.isEmpty_iff, generate_default_pain_points_ne p]
  · by_cases h2 : key == "language".data
    · simp [h1, h2, pyTruthy, List.isEmpty_iff, generate_default_language_ne p]
    · by_cases h3 : key == "topics".data
      · simp [h1, h2, h3, pyTruthy, List.isEmpty_iff, generate_default_topics_ne p]
      · simp [h1, h2, h3, pyTruthy, List.isEmpty_iff, defaultInsightsText_ne p]

theorem bindOk {β γ : Type} (a : β) (f : β → Except String γ) :
    ((Except.ok a : Except String β) >>= f) = f a := rfl

theorem pureOk {β : Type} (a : β) : (pure a : Except String β) = Except.ok a := rfl

theorem synthFixKey_obj (p : ProductInfo) (kvs : List (Str × Json)) (key : Str) :
    ∃ kvs', synthFixKey p (.obj kvs) key = .ok (.obj kvs') ∧
      (∃ v, objLookup kvs' key = some v ∧ pyTruthy v = true) ∧
      (∀ k', k' ≠ key → objLookup kvs' k' = objLookup kvs k') := by
  unfold synthFixKey
  cases hany : (kvs.any fun q => q.1 == key) with
  | false =>
    refine ⟨objInsert kvs key (synthDefaultFor p key), ?_, ?_, ?_⟩
    · simp [pyContainsStr, bindOk, hany, pySetItemStr]
    · exact ⟨_, objLookup_objInsert_self kvs key _, synthDefaultFor_truthy p key⟩
    · intro k' hk
      exact objLookup_objInsert_ne kvs key k' _ hk
  | true =>
    have hsome : (objLookup kvs key).isSome := by
      rw [← objAny_eq_isSome]
      exact hany
    obtain ⟨v, hv⟩ := Option.isSome_iff_exists.mp hsome
    cases htr : pyTruthy v with
    | false =>
      refine ⟨objInsert kvs key (synthDefaultFor p key), ?_, ?_, ?_⟩
      · simp [pyContainsStr, bindOk, hany, pyGetItemStr, hv, htr, pySetItemStr]
      · exact ⟨_, objLookup_objInsert_self kvs key _, synthDefaultFor_truthy p key⟩
      · intro k' hk
        exact objLookup_objInsert_ne kvs key k' _ hk
    | true =>
      refine ⟨kvs, ?_, ⟨v, hv, htr⟩, fun _ _ => rfl⟩
      simp [pyContainsStr, bindOk, hany, pyGetItemStr, hv, htr, pureOk]

theorem synthCoerceList_obj (kvs : List (Str × Json)) (key : Str) (v : Json)
    (hv : objLookup kvs key = some v) (htr : pyTruthy v = true) :
    ∃ kvs', synthCoerceList (.obj kvs) key = .ok (.obj kvs') ∧
      (∃ xs, objLookup kvs' key = some (.arr xs) ∧ xs ≠ []) ∧
      (∀ k', k' ≠ key → objLookup kvs' k' = objLookup kvs k') := by
  unfold synthCoerceList
  cases v with
  | arr xs =>
    refine ⟨kvs, ?_, ⟨xs, hv, ?_⟩, fun _ _ => rfl⟩
    · simp [pyGetItemStr, hv, bindOk, pureOk]
    · simpa [pyTruthy, List.isEmpty_iff] using htr
  | null => simp [pyTruthy] at htr
  | bool b =>
    refine ⟨objInsert kvs key (.arr [.str (pyStr (.bool b))]), ?_, ?_, ?_⟩
    · simp [pyGetItemStr, hv, bindOk, pySetItemStr]
    · exact ⟨_, objLookup_objInsert_self kvs key _, by simp⟩
    · intro k' hk
      exact objLookup_objInsert_ne kvs key k' _ hk
  | num n =>
    refine ⟨objInsert kvs key (.arr [.str (pyStr (.num n))]), ?_, ?_, ?_⟩
    · simp [pyGetItemStr, hv, bindOk, pySetItemStr]
    · exact ⟨_, objLookup_objInsert_self kvs key _, by simp⟩
    · intro k' hk
      exact objLookup_objInsert_ne kvs key k' _ hk
  | str s =>
    refine ⟨objInsert kvs key (.arr [.str (pyStr (.str s))]), ?_, ?_, ?_⟩
    · simp [pyGetItemStr, hv, bindOk, pySetItemStr]
    · exact ⟨_, objLookup_objInsert_self kvs key _, by simp⟩
    · intro k' hk
      exact objLookup_objInsert_ne kvs key k' _ hk
  | obj kvs₂ =>
    refine ⟨objInsert kvs key (.arr [.str (pyStr (.obj kvs₂))]), ?_, ?_, ?_⟩
    · simp [pyGetItemStr, hv, bindOk, pySetItemStr]
    · exact ⟨_, objLookup_objInsert_self kvs key _, by simp⟩
    · intro k' hk
      exact objLookup_objInsert_ne kvs key k' _ hk

theorem synthCoerceStr_obj (kvs : List (Str × Json)) (v : Json)
    (hv : objLookup kvs "insights".data = some v) (htr : pyTruthy v = true) :
    ∃ kvs', synthCoerceStr (.obj kvs) = .ok (.obj kvs') ∧
      (∃ s, objLookup kvs' "insights".data = some (.str s) ∧ s ≠ []) ∧
      (∀ k', k' ≠ "insights".data → objLookup kvs' k' = objLookup kvs k') := by
  unfold synthCoerceStr
  cases v with
  | str s =>
    refine ⟨kvs, ?_, ⟨s, hv, ?_⟩, fun _ _ => rfl⟩
    · simp [pyGetItemStr, hv, bindOk, pureOk]
    · simpa [pyTruthy, List.isEmpty_iff] using htr
  | null => simp [pyTruthy] at htr
  | bool b =>
    refine ⟨objInsert kvs "insights".data (.str (pyStr (.bool b))), ?_, ?_, ?_⟩
    · simp [pyGetItemStr, hv, bindOk, pySetItemStr]
    · exact ⟨_, objLookup_objInsert_self kvs _ _, pyStr_ne_of_truthy _ htr⟩
    · intro k' hk
      exact objLookup_objInsert_ne kvs _ k' _ hk
  | num n =>
    refine ⟨objInsert kvs "insights".data (.str (pyStr (.num n))), ?_, ?_, ?_⟩
    · simp [pyGetItemStr, hv, bindOk, pySetItemStr]
    · exact ⟨_, objLookup_objInsert_self kvs _ _, pyStr_ne_of_truthy _ htr⟩
    · intro k' hk
      exact objLookup_objInsert_ne kvs _ k' _ hk
  | arr xs =>
    refine ⟨objInsert kvs "insights".data (.str (pyStr (.arr xs))), ?_, ?_, ?_⟩
    · simp [pyGetItemStr, hv, bindOk, pySetItemStr]
    · exact ⟨_, objLookup_objInsert_self kvs _ _, pyStr_ne_of_truthy _ htr⟩
    · intro k' hk
      exact objLookup_objInsert_ne kvs _ k' _ hk
  | obj kvs₂ =>
    refine ⟨objInsert kvs "insights".data (.str (pyStr (.obj kvs₂))), ?_, ?_, ?_⟩
    · simp [pyGetItemStr, hv, bindOk, pySetItemStr]
    · exact ⟨_, objLookup_objInsert_self kvs _ _, pyStr_ne_of_truthy _ htr⟩
    · intro k' hk
      exact objLookup_objInsert_ne kvs _ k' _ hk

theorem synthRepair_obj (p : ProductInfo) (kvs₀ : List (Str × Json)) :
    ∃ j, synthRepair p (.obj kvs₀) = .ok j ∧ insightsComplete j = true := by
  obtain ⟨k1, e1, ⟨v1, hv1, t1⟩, pres1⟩ := synthFixKey_obj p kvs₀ "pain_points".data
  obtain ⟨k2, e2, ⟨v2, hv2, t2⟩, pres2⟩ := synthFixKey_obj p k1 "language".data
  obtain ⟨k3, e3, ⟨v3, hv3, t3⟩, pres3⟩ := synthFixKey_obj p k2 "topics".data
  obtain ⟨k4, e4, ⟨v4, hv4, t4⟩, pres4⟩ := synthFixKey_obj p k3 "insights".data
  have hv1' : objLookup k4 "pain_points".data = some v1 := by
    rw [pres4 _ (by decide), pres3 _ (by decide), pres2 _ (by decide)]
    exact hv1
  obtain ⟨k5, e5, ⟨xs1, hx1, hxne1⟩, pres5⟩ :=
    synthCoerceList_obj k4 "pain_points".data v1 hv1' t1
  have hv2' : objLookup k5 "language".data = some v2 := by
    rw [pres5 _ (by decide), pres4 _ (by decide), pres3 _ (by decide)]
    exact hv2
  obtain ⟨k6, e6, ⟨xs2, hx2, hxne2⟩, pres6⟩ :=
    synthCoerceList_obj k5 "language".data v2 hv2' t2
  have hv3' : objLookup k6 "topics".data = some v3 := by
    rw [pres6 _ (by decide), pres5 _ (by decide), pres4 _ (by decide)]
    exact hv3
  obtain ⟨k7, e7, ⟨xs3, hx3, hxne3⟩, pres7⟩ :=
    synthCoerceList_obj k6 "topics".data v3 hv3' t3
  have hv4' : objLookup k7 "insights".data = some v4 := by
    rw [pres7 _ (by decide), pres6 _ (by decide), pres5 _ (by decide)]
    exact hv4
  obtain ⟨k8, e8, ⟨s, hs, hsne⟩, pres8⟩ := synthCoerceStr_obj k7 v4 hv4' t4
  refine ⟨.obj k8, ?_, ?_⟩
  · simp only [synthRepair, e1, bindOk, e2, e3, e4, e5, e6, e7, e8]
  · have hx1f : objLookup k8 "pain_points".data = some (.arr xs1) := by
      rw [pres8 _ (by decide), pres7 _ (by decide), pres6 _ (by decide)]
      exact hx1
    have hx2f : objLookup k8 "language".data = some (.arr xs2) := by
      rw [pres8 _ (by decide), pres7 _ (by decide)]
      exact hx2
    have hx3f : objLookup k8 "topics".data = some (.arr xs3) := by
      rw [pres8 _ (by decide)]
      exact hx3
    simp [insightsComplete, hx1f, hx2f, hx3f, hs, List.isEmpty_iff, hxne1, hxne2,
      hxne3, hsne]

theorem relevanceLoop_below {α : Type} (batch : List α) (items : List Json)
    (h : items.all evalBelowThreshold = true) : relevanceLoop batch items = .ok [] := by
  induction items with
  | nil => rfl
  | cons item rest ih =>
    simp only [List.all_cons, Bool.and_eq_true] at h
    obtain ⟨h1, h2⟩ := h
    cases item with
    | obj kvs =>
      cases hscore : (objLookup kvs "relevance_score".data).getD (.num 0) with
      | num m =>
        have hm : ¬(6 ≤ m) := by
          simp [evalBelowThreshold, hscore] at h1
          omega
        simp [relevanceLoop, pyDictGet, hscore, bindOk, pyGeInt, hm, ih h2]
      | bool b =>
        cases b with
        | true => simp [relevanceLoop, pyDictGet, hscore, bindOk, pyGeInt, ih h2]
        | false => simp [relevanceLoop, pyDictGet, hscore, bindOk, pyGeInt, ih h2]
      | null => simp [evalBelowThreshold, hscore] at h1
      | str s => simp [evalBelowThreshold, hscore] at h1
      | arr xs => simp [evalBelowThreshold, hscore] at h1
      | obj kvs2 => simp [evalBelowThreshold, hscore] at h1
    | null => simp [evalBelowThreshold] at h1
    | bool b => simp [evalBelowThreshold] at h1
    | num n => simp [evalBelowThreshold] at h1
    | str s => simp [evalBelowThreshold] at h1
    | arr xs => simp [evalBelowThreshold] at h1

theorem extractWithDefault_obj (response : Str) (d : Json)
    (hd : ∃ kd, d = Json.obj kd)
    (h : extract_core response = none ∨
      ∃ kvs, extract_core response = some (.obj kvs)) :
    ∃ kvs₀, extractWithDefault response d = .obj kvs₀ := by
  by_cases he : (pyStrip response).isEmpty
  · obtain ⟨kd, rfl⟩ := hd
    exact ⟨kd, by simp [extractWithDefault, extract_json_from_llm_response, he]⟩
  · rcases h with h | ⟨kvs, hk⟩
    · obtain ⟨kd, rfl⟩ := hd
      exact ⟨kd, by simp [extractWithDefault, extract_json_from_llm_response, he, h]⟩
    · exact ⟨kvs, by simp [extractWithDefault, extract_json_from_llm_response, he, hk]⟩

theorem reviewFixImproved_obj (ad : Str) (kvs₀ : List (Str × Json)) :
    ∃ kvs₁, reviewFixImproved ad (.obj kvs₀) = .ok (.obj kvs₁) ∧
      (improvedFalsy (.obj kvs₀) = true →
        objLookup kvs₁ "improved_script".data = some (.str ad)) ∧
      (improvedFalsy (.obj kvs₀) = false →
        objLookup kvs₁ "improved_script".data
          = objLookup kvs₀ "improved_script".data) := by
  unfold reviewFixImproved
  cases hany : (kvs₀.any fun q => q.1 == "improved_script".data) with
  | false =>
    have hnone : objLookup kvs₀ "improved_script".data = none := by
      have := objAny_eq_isSome kvs₀ "improved_script".data
      rw [hany] at this
      exact Option.not_isSome_iff_eq_none.mp (by simp [← this])
    refine ⟨objInsert kvs₀ "improved_script".data (.str ad), ?_, ?_, ?_⟩
    · simp [pyContainsStr, bindOk, hany, pySetItemStr]
    · intro _
      exact objLookup_objInsert_self _ _ _
    · intro hfalsy
      rw [show improvedFalsy (.obj kvs₀) = true by simp [improvedFalsy, hnone]] at hfalsy
      cases hfalsy
  | true =>
    have hsome : (objLookup kvs₀ "improved_script".data).isSome := by
      rw [← objAny_eq_isSome]
      exact hany
    obtain ⟨v, hv⟩ := Option.isSome_iff_exists.mp hsome
    cases htr : pyTruthy v with
    | false =>
      refine ⟨objInsert kvs₀ "improved_script".data (.str ad), ?_, ?_, ?_⟩
      · simp [pyContainsStr, bindOk, hany, pyGetItemStr, hv, htr, pySetItemStr]
      · intro _
        exact objLookup_objInsert_self _ _ _
      · intro hfalsy
        rw [show improvedFalsy (.obj kvs₀) = true by
          simp [improvedFalsy, hv, htr]] at hfalsy
        cases hfalsy
    | true =>
      refine ⟨kvs₀, ?_, ?_, fun _ => rfl⟩
      · simp [pyContainsStr, bindOk, hany, pyGetItemStr, hv, htr, pureOk]
      · intro hfalsy
        rw [show improvedFalsy (.obj kvs₀) = false by
          simp [improvedFalsy, hv, htr]] at hfalsy
        cases hfalsy


theorem ifEmpty_firstParse (l : List Str) :
    (if l.isEmpty then none else firstParse l) = firstParse l := by
  cases l <;> rfl

theorem ifEmpty_firstParse_sorted (l : List Str) :
    (if l.isEmpty then none else firstParse (sortLenDesc l))
      = firstParse (sortLenDesc l) := by
  cases l <;> rfl

theorem extract_core_eq_chain (response : Str) :
    extract_core response = extract_specChain response := by
  unfold extract_core extract_specChain
  dsimp only
  rw [ifEmpty_firstParse, ifEmpty_firstParse_sorted, ifEmpty_firstParse_sorted]
  cases h1 : jsonParse response with
  | some j => rfl
  | none =>
    cases h2 : firstParse (codeBlocks response) with
    | some j => rfl
    | none =>
      cases h3 : firstParse (sortLenDesc (braceCands response)) with
      | some j => rfl
      | none => rfl

/-! ## Supporting concrete values for the claims -/

/-- A ProductInfo with every optional field absent, used as the concrete
product in witnesses and counterexamples. -/
def sampleProduct : ProductInfo :=
  { product_name := "FocusFlow".data
    product_description := "An app that blocks distractions".data
    target_audience := "remote workers".data
    campaign_goal := "increase signups".data
    use_cases := none
    niche := none
    keywords := none }

/-- A set of backends that all raise, for exercising the fallback path. -/
def failingBackends : Backends :=
  { openai := fun _ _ => .error "openai down"
    claude := fun _ _ => .error "claude down"
    groq := fun _ _ => .error "groq down" }

/-- Concrete stage collaborators for one pipeline run. -/
def demoAgents : Agents Nat :=
  { find_subreddits := ["productivity".data]
    search_queries := ["focus app".data]
    collect := fun _ _ => []
    filterPosts := id
    extractInsights := fun _ => Json.null
    synthesizeInsights := Json.obj [("insights".data, .str "insight".data)]
    copywrite := fun _ => "draft script".data
    review := fun s => Json.obj [("improved_script".data, .str s)]
    runbook := .ok "runbook.md".data }

/-! ## The claims -/

/-- C1: for every input string and caller-supplied default,
`extract_json_from_llm_response` never raises (it is a total function into
a parse result or the default), and whenever none of the four extraction
strategies yields parseable JSON it returns exactly the caller-supplied
default value. -/
theorem extract_json_returns_default_when_all_strategies_fail {α : Type}
    (response : Str) (default : α) :
    ((jsonParse response = none ∧ firstParse (codeBlocks response) = none ∧
      firstParse (sortLenDesc (braceCands response)) = none ∧
      firstParse (sortLenDesc (bracketCands response)) = none) →
      extract_json_from_llm_response response default = .inr default) ∧
    (extract_json_from_llm_response response default = .inr default ∨
      ∃ j, extract_json_from_llm_response response default = .inl j) := by
  constructor
  · rintro ⟨h1, h2, h3, h4⟩
    have hcore : extract_core response = none := by
      rw [extract_core_eq_chain]
      unfold extract_specChain
      simp [h1, h2, h3, h4, Option.orElse]
    unfold extract_json_from_llm_response
    by_cases he : (pyStrip response).isEmpty
    · simp [he]
    · simp [he, hcore]
  · unfold extract_json_from_llm_response
    by_cases he : (pyStrip response).isEmpty
    · left
      simp [he]
    · cases hcore : extract_core response with
      | none => left; simp [he, hcore]
      | some j => right; exact ⟨j, by simp [he, hcore]⟩

/-- Witness for C1: on plain prose with no embedded JSON, every strategy
fails and the function returns the supplied default. -/
theorem extract_json_returns_default_when_all_strategies_fail_witness :
    extract_json_from_llm_response "hello world".data (42 : Nat) = .inr 42 :=
  (extract_json_returns_default_when_all_strategies_fail
    "hello world".data 42).1 ⟨rfl, rfl, rfl, rfl⟩

/-- C2 (counterexample): the claim admits every model response, including
JSON scalars, but a response decoding to the scalar `5` makes the
required-keys repair loop evaluate `"pain_points" not in 5`, which raises
`TypeError` in Python — the function raises instead of returning a
populated record. -/
theorem synthesize_insights_raises_on_scalar_json :
    synthesize_insights_without_data sampleProduct "5".data
      = .error "TypeError: argument is not iterable" := rfl

/-- C2 (amended): for every ProductInfo and every model response that
either fails structured extraction or decodes to a JSON object,
`synthesize_insights_without_data` returns without raising a record whose
four fields are all non-empty.  (Responses decoding to JSON scalars,
strings or arrays raise `TypeError` instead.) -/
theorem synthesize_insights_all_fields_nonempty (p : ProductInfo) (response : Str)
    (h : extract_core response = none ∨
      ∃ kvs, extract_core response = some (.obj kvs)) :
    ∃ j, synthesize_insights_without_data p response = .ok j ∧
      insightsComplete j = true := by
  obtain ⟨kvs₀, hk⟩ := extractWithDefault_obj response (synthDefaultObj p) ⟨_, rfl⟩ h
  unfold synthesize_insights_without_data
  rw [hk]
  exact synthRepair_obj p kvs₀

/-- Witness for C2: a product with no optional fields and an unparseable
response yield the deterministic defaults, all four fields non-empty. -/
theorem synthesize_insights_all_fields_nonempty_witness :
    ∃ j, synthesize_insights_without_data sampleProduct "not json at all".data
      = .ok j ∧ insightsComplete j = true :=
  synthesize_insights_all_fields_nonempty sampleProduct "not json at all".data
    (Or.inl rfl)

/-- C3 (counterexample): with the empty input script and a review response
decoding to an object without `improved_script`, the returned Review's
`improved_script` is the empty string — "the returned improved_script is
never empty" fails. -/
theorem review_improved_script_empty_on_empty_input :
    (review_ad_script [] "general".data "\x7b\x7d".data).map (fun r =>
      match r with
      | .obj kvs => objLookup kvs "improved_script".data
      | _ => none) = .ok (some (.str [])) := rfl

/-- C3 (amended): for every input script and review response that fails
extraction or decodes to a JSON object, `review_ad_script` returns a
Review in which (a) whenever the extracted payload's `improved_script` is
absent or empty, `improved_script` equals the input script, and (b)
whenever the input script is non-empty, `improved_script` is non-empty
(truthy).  With an empty input script and an absent or empty field the
returned `improved_script` is empty. -/
theorem review_improved_script_fallback (ad_script platform response : Str)
    (h : extract_core response = none ∨
      ∃ kvs, extract_core response = some (.obj kvs)) :
    ∃ kvs, review_ad_script ad_script platform response = .ok (.obj kvs) ∧
      (improvedFalsy (extractWithDefault response
          (reviewDefault ad_script (normPlatform platform))) = true →
        objLookup kvs "improved_script".data = some (.str ad_script)) ∧
      (ad_script ≠ [] →
        ∃ v, objLookup kvs "improved_script".data = some v ∧ pyTruthy v = true) := by
  obtain ⟨kvs₀, hk0⟩ := extractWithDefault_obj response
    (reviewDefault ad_script (normPlatform platform)) ⟨_, rfl⟩ h
  obtain ⟨kvs₁, e1, hfT, hfF⟩ := reviewFixImproved_obj ad_script kvs₀
  refine ⟨objInsert kvs₁ "platform".data (.str (normPlatform platform)), ?_, ?_, ?_⟩
  · simp only [review_ad_script, hk0, e1, bindOk, pySetItemStr]
  · intro hfalsy
    rw [hk0] at hfalsy
    rw [objLookup_objInsert_ne _ _ _ _ (by decide)]
    exact hfT hfalsy
  · intro hne
    rw [objLookup_objInsert_ne _ _ _ _ (by decide)]
    cases hfalsy : improvedFalsy (.obj kvs₀) with
    | true =>
      exact ⟨.str ad_script, hfT hfalsy,
        by simpa [pyTruthy, List.isEmpty_iff] using hne⟩
    | false =>
      cases hl : objLookup kvs₀ "improved_script".data with
      | none =>
        exfalso
        rw [show improvedFalsy (.obj kvs₀) = true by
          simp [improvedFalsy, hl]] at hfalsy
        cases hfalsy
      | some v =>
        have htv : pyTruthy v = true := by
          have hcopy := hfalsy
          simp [improvedFalsy, hl] at hcopy
          exact hcopy
        exact ⟨v, by rw [hfF hfalsy, hl], htv⟩

/-- Witness for C3: a non-empty script with an empty-object review response
gets the original script copied into `improved_script`. -/
theorem review_improved_script_fallback_witness :
    ∃ kvs, review_ad_script "my ad".data "general".data "\x7b\x7d".data
        = .ok (.obj kvs) ∧
      (improvedFalsy (extractWithDefault "\x7b\x7d".data
          (reviewDefault "my ad".data (normPlatform "general".data))) = true →
        objLookup kvs "improved_script".data = some (.str "my ad".data)) ∧
      ("my ad".data ≠ [] →
        ∃ v, objLookup kvs "improved_script".data = some v ∧ pyTruthy v = true) :=
  review_improved_script_fallback "my ad".data "general".data "\x7b\x7d".data
    (Or.inr ⟨[], rfl⟩)

/-- C4 (counterexample): an evaluation list whose entries are not dicts
(here `[1]`) makes `eval_item.get` raise `AttributeError` — the function
raises instead of returning the batch, so "malformed evaluations return
the full input batch" fails. -/
theorem filter_posts_raises_on_nondict_entry :
    filter_posts_by_relevance [(0 : Nat)] "[1]".data
      = .error "AttributeError: object has no attribute get" := rfl

/-- C4 (amended): for every non-empty post list and every response that
fails extraction or decodes to a list of well-formed entries none of which
reaches relevance 6, `filter_posts_by_relevance` returns the first
`min(10, length)` posts unfiltered (fail-open).  Evaluation entries that
are not dicts, or whose scores are not numbers, raise instead. -/
theorem filter_posts_fail_open {α : Type} (posts : List α) (response : Str)
    (hne : posts ≠ [])
    (h : extract_core response = none ∨
      ∃ items, extract_core response = some (.arr items) ∧
        items.all evalBelowThreshold = true) :
    filter_posts_by_relevance posts response = .ok (posts.take 10) := by
  unfold filter_posts_by_relevance
  rw [if_neg (by simp [hne])]
  by_cases he : (pyStrip response).isEmpty
  · have hev : extractWithDefault response (.arr []) = .arr [] := by
      simp [extractWithDefault, extract_json_from_llm_response, he]
    simp [hev, pyTruthy]
  · rcases h with h | ⟨items, hit, hbelow⟩
    · have hev : extractWithDefault response (.arr []) = .arr [] := by
        simp [extractWithDefault, extract_json_from_llm_response, he, h]
      simp [hev, pyTruthy]
    · have hev : extractWithDefault response (.arr []) = .arr items := by
        simp [extractWithDefault, extract_json_from_llm_response, he, hit]
      cases items with
      | nil => simp [hev, pyTruthy]
      | cons item rest =>
        rw [hev]
        simp only [pyTruthy, List.isEmpty_cons, Bool.not_false, if_neg]
        simp [pyIter, bindOk, relevanceLoop_below _ _ hbelow, pureOk]

/-- Witness for C4: 10 posts and one evaluation entry scoring 3 return all
10 posts unfiltered. -/
theorem filter_posts_fail_open_witness :
    filter_posts_by_relevance [0, 1, 2, 3, 4, 5, 6, 7, 8, 9]
      "[\x7b\"post_index\": 0, \"relevance_score\": 3\x7d]".data
      = .ok [0, 1, 2, 3, 4, 5, 6, 7, 8, 9] :=
  filter_posts_fail_open [0, 1, 2, 3, 4, 5, 6, 7, 8, 9]
    "[\x7b\"post_index\": 0, \"relevance_score\": 3\x7d]".data
    (by decide)
    (Or.inr ⟨[Json.obj [("post_index".data, .num 0),
      ("relevance_score".data, .num 3)]], rfl, rfl⟩)

/-- C5: `generate_llm_response` never raises; when the configured backend
raises it falls back exactly once to OpenAI `gpt-4o`, and when that call
also raises it returns a string embedding the first error's message. -/
theorem generate_llm_response_fallback_policy (b : Backends)
    (llm_provider model_name prompt : Str) (e : String)
    (hp : primaryCall b llm_provider model_name prompt = .error e) :
    (∀ r, b.openai "gpt-4o".data prompt = .ok r →
      generate_llm_response b llm_provider model_name prompt
        = clean_llm_response r) ∧
    (∀ e₂, b.openai "gpt-4o".data prompt = .error e₂ →
      generate_llm_response b llm_provider model_name prompt
        = "Error generating response: ".data ++ e.data) := by
  constructor
  · intro r hr
    unfold generate_llm_response
    rw [hp, hr]
  · intro e₂ h₂
    unfold generate_llm_response
    rw [hp, h₂]

/-- Witness for C5: with a failing Groq backend and a failing OpenAI
fallback, the result embeds the first (Groq) error message. -/
theorem generate_llm_response_fallback_policy_witness :
    generate_llm_response failingBackends "groq".data
      "llama-3.3-70b-versatile".data "hi".data
      = "Error generating response: groq down".data :=
  (generate_llm_response_fallback_policy failingBackends "groq".data
    "llama-3.3-70b-versatile".data "hi".data "groq down" rfl).2 "openai down" rfl

/-- C6 (counterexample): cleaning is not idempotent: removing the
`JSON:` label from `JSJSON:ON:` re-creates the label, so a second pass
removes it again. -/
theorem clean_llm_response_not_idempotent :
    clean_llm_response "JSJSON:ON:".data = "JSON:".data ∧
    clean_llm_response (clean_llm_response "JSJSON:ON:".data) = [] ∧
    clean_llm_response (clean_llm_response "JSJSON:ON:".data)
      ≠ clean_llm_response "JSJSON:ON:".data :=
  ⟨rfl, rfl, by decide⟩

/-- C6 (amended): cleaning is idempotent on every input whose cleaned
output is free of the removed artifacts (no `<`, no backtick, no
`JSON response:` or `JSON:` label); a substitution can re-create a removed
label, so unrestricted idempotence fails. -/
theorem clean_llm_response_idem_on_artifact_free (s : Str)
    (h : artifactFree (clean_llm_response s) = true) :
    clean_llm_response (clean_llm_response s) = clean_llm_response s := by
  set t := clean_llm_response s with hts
  simp only [artifactFree, Bool.and_eq_true, Bool.not_eq_true'] at h
  obtain ⟨⟨⟨h1, h2⟩, h3⟩, h4⟩ := h
  show clean_llm_response t = t
  by_cases he : t.isEmpty
  · rw [List.isEmpty_iff] at he
    rw [he]
    rfl
  · unfold clean_llm_response
    rw [if_neg (by simp [he])]
    simp only [subThinkPair_id _ _ h1, subThinkOpen_id _ _ h1, subThinkClose_id _ _ h1,
      subTags_id _ _ h1, subFenceJson_id _ _ h2, subFence_id _ _ h2,
      removeLit_id _ _ _ h3, removeLit_id _ _ _ h4]
    rw [hts]
    exact pyStrip_clean s

/-- Witness for C6: ordinary prose cleans to itself and is artifact-free,
so cleaning twice equals cleaning once. -/
theorem clean_llm_response_idem_on_artifact_free_witness :
    artifactFree (clean_llm_response "hello world".data) = true ∧
    clean_llm_response (clean_llm_response "hello world".data)
      = clean_llm_response "hello world".data :=
  ⟨rfl, clean_llm_response_idem_on_artifact_free "hello world".data rfl⟩

/-- C7 (counterexample): on text whose only JSON is a nested object, the
longest *balanced* brace substring parses, yet extraction returns the
default: the non-greedy regex candidate stops at the first closing brace
and is unbalanced, steps 1–2 fail (no code fences, whole text unparseable),
and there is no bracket candidate. -/
theorem extract_json_misses_longest_balanced_brace :
    containsSub "\x7b\"a\": \x7b\"b\": 1\x7d\x7d".data
      "junk \x7b\"a\": \x7b\"b\": 1\x7d\x7d junk".data = true ∧
    jsonParse "\x7b\"a\": \x7b\"b\": 1\x7d\x7d".data
      = some (.obj [("a".data, .obj [("b".data, .num 1)])]) ∧
    jsonParse "junk \x7b\"a\": \x7b\"b\": 1\x7d\x7d junk".data = none ∧
    codeBlocks "junk \x7b\"a\": \x7b\"b\": 1\x7d\x7d junk".data = [] ∧
    braceCands "junk \x7b\"a\": \x7b\"b\": 1\x7d\x7d junk".data
      = ["\x7b\"a\": \x7b\"b\": 1\x7d".data] ∧
    extract_json_from_llm_response
      "junk \x7b\"a\": \x7b\"b\": 1\x7d\x7d junk".data (0 : Nat) = Sum.inr 0 :=
  ⟨rfl, rfl, rfl, rfl, rfl, rfl⟩

/-- C7 (amended): `extract_json_from_llm_response` applies, in order,
returning the first success: (1) parse the whole text; (2) parse each
fenced code block's content in document order; (3) parse the brace
candidates — the leftmost non-overlapping substrings running from a `\x7b`
to the *first* `\x7d` after it — in stable order of decreasing length;
(4) the same for `[...]` candidates.  (The candidates of step 3 are not
the longest balanced substrings: with nested braces the candidate is
truncated at the first closing brace.) -/
theorem extract_strategy_order (response : Str) :
    extract_core response = extract_specChain response :=
  extract_core_eq_chain response

/-- C8: the generic-query retry branch of `collect_data` is dead code: a
subreddit is counted successful only when it yielded posts, and those posts
reach `all_posts`, so `not all_posts and successful_subreddits > 0` is
unsatisfiable and no backend behaviour makes the retry run. -/
theorem collect_data_retry_branch_dead {α : Type}
    (search : Str → Str → Nat → Except String (List α))
    (subreddits queries : List Str) (ppq : Nat) :
    (collect_data search subreddits queries ppq).retried = false := by
  unfold collect_data
  dsimp only
  generalize hM : collectMainLoop search ppq _ _ = M
  by_cases h : (M.1.isEmpty && decide (M.2.1 > 0)) = true
  · simp only [Bool.and_eq_true, decide_eq_true_eq, List.isEmpty_iff] at h
    have h0 := collectMainLoop_zero_success search ppq _ _ (by rw [hM]; exact h.1)
    rw [hM] at h0
    omega
  · rw [if_neg h]

/-- C9: a failing artifact-store write aborts `generate_ad`: the
stage-artifact writes and the unconditional final-script write are not
wrapped in any exception handler, so the pipeline raises instead of
continuing (with `save_intermediates` set, the stage-1 write aborts;
without it, the final-script write still aborts). -/
theorem generate_ad_write_failure_aborts_pipeline :
    generate_ad demoAgents (fun _ => .error "OSError: disk full")
      true false true "general".data = .error "OSError: disk full" ∧
    generate_ad demoAgents (fun _ => .error "OSError: disk full")
      false false true "general".data = .error "OSError: disk full" :=
  ⟨rfl, rfl⟩

/-- C10: when every incoming source name is invalid, `collect_data`
substitutes the fixed default source list and issues one search per
(default source, effective query) pair — the effective queries being the
cleaned incoming queries, or the fixed generic list when every query is
invalid too; in particular the call list is never empty. -/
theorem collect_data_invalid_sources_use_defaults {α : Type}
    (search : Str → Str → Nat → Except String (List α))
    (subreddits queries : List Str) (ppq : Nat)
    (h : ∀ s ∈ subreddits, validSubName s = false) :
    (collect_data search subreddits queries ppq).calls =
      defaultSubreddits.flatMap (fun sub =>
        (effectiveQueries queries).map fun q => (sub, q)) ∧
    (collect_data search subreddits queries ppq).calls ≠ [] ∧
    (cleanQueries queries = [] → effectiveQueries queries = genericQueries) := by
  have hq : effectiveQueries queries ≠ [] := by
    unfold effectiveQueries
    dsimp only
    split
    · simp [genericQueries]
    · next h' => simpa using h'
  refine ⟨?_, ?_, ?_⟩
  · rw [collect_data_calls, effectiveSubreddits_all_invalid _ h]
  · rw [collect_data_calls, effectiveSubreddits_all_invalid _ h]
    intro hc
    simp only [defaultSubreddits, List.flatMap_cons] at hc
    exact hq (List.map_eq_nil_iff.mp (List.append_eq_nil.mp hc).1)
  · intro hcq
    unfold effectiveQueries
    simp [hcq]

/-- Witness for C10: one invalid name (length 1) and one invalid (empty)
query produce the full default-source × generic-query call grid. -/
theorem collect_data_invalid_sources_use_defaults_witness :
    (collect_data (fun _ _ _ => (.ok [] : Except String (List Nat)))
      ["a".data] ["".data] 2).calls ≠ [] :=
  (collect_data_invalid_sources_use_defaults
    (fun _ _ _ => (.ok [] : Except String (List Nat)))
    ["a".data] ["".data] 2 (by decide)).2.1


end AdSynth

